import Mathlib

/-!
Verification of the ECScope performance-analysis pipeline
(`scripts/analyze_performance_results.py`) against its specification.

Python numbers are modelled exactly: `int` and `float` values carried by the
JSON data are embedded as `ℚ` (every float literal appearing in the inputs we
reason about is rational), while the one genuinely irrational operation of the
program, the square root in the confidence computation, is modelled over `ℝ`
with `Real.sqrt`.  Strings that Python would coerce to numbers (`float("1.5")`)
are outside the model: every string is treated as non-numeric, which is exact
for all inputs considered in the theorems below.
-/

namespace ECScope

/-- Python values produced by `json.load`: `None`, booleans, numbers,
strings, arrays and objects.  Object key lists are assumed duplicate-free,
as `json.load` produces. -/
inductive Json where
  | null : Json
  | bool (b : Bool) : Json
  | num (q : ℚ) : Json
  | str (s : String) : Json
  | arr (xs : List Json) : Json
  | obj (kvs : List (String × Json)) : Json

/-- Exceptions relevant to the loader boundary.  `FileNotFoundError` and
`json.JSONDecodeError` are caught by `load_results`; `KeyError`, `ValueError`
and `TypeError` are caught per-record; `AttributeError` is caught nowhere. -/
inductive PyError where
  | typeError : PyError
  | valueError : PyError
  | keyError : PyError
  | attributeError : PyError
deriving DecidableEq, Repr

/-- Whether a JSON value is an object (a Python `dict`). -/
def Json.isObj : Json → Bool
  | .obj _ => true
  | _ => false

/-- Python `str()` of a JSON value, used where the script interpolates values
into f-strings.  The rendering of containers abstracts Python `repr` details;
no theorem below depends on the rendered text of a container. -/
def Json.render : Json → String
  | .null => "None"
  | .bool b => cond b "True" "False"
  | .num q => toString q
  | .str s => s
  | .arr xs => "[" ++ String.intercalate ", " (xs.attach.map (fun x => Json.render x.1)) ++ "]"
  | .obj kvs =>
      "\x7b" ++ String.intercalate ", " (kvs.attach.map (fun x => x.1.1 ++ ": " ++ Json.render x.1.2)) ++ "\x7d"
decreasing_by
  · have h := List.sizeOf_lt_of_mem x.2
    simp only [Json.arr.sizeOf_spec]
    omega
  · rcases x with ⟨⟨k, v⟩, hm⟩
    have h := List.sizeOf_lt_of_mem hm
    simp only [Prod.mk.sizeOf_spec] at h
    simp only [Json.obj.sizeOf_spec]
    omega

/-- Dictionary lookup on the key/value list of an object. -/
def jlookup (kvs : List (String × Json)) (k : String) : Option Json :=
  (kvs.find? (fun kv => kv.1 == k)).map (fun kv => kv.2)

/-- Python `item.get(k, d)` on a dict: the stored value if the key is present
(even when that value is `None`), otherwise the default. -/
def jget (kvs : List (String × Json)) (k : String) (d : Json) : Json :=
  (jlookup kvs k).getD d

/-- Python `float(v)`: numbers pass through, booleans become 0/1, `None` and
containers raise `TypeError`, strings raise `ValueError` (numeric-literal
strings are not modelled, see the file comment). -/
def pyFloat : Json → Except PyError ℚ
  | .num q => .ok q
  | .bool b => .ok (cond b 1 0)
  | .str _ => .error .valueError
  | _ => .error .typeError

/-- Truncation toward zero, as Python `int()` applied to a float. -/
def pyTrunc (q : ℚ) : Int :=
  if q < 0 then ⌈q⌉ else ⌊q⌋

/-- Python `int(v)`: numbers truncate toward zero, booleans become 0/1,
`None` and containers raise `TypeError`, strings raise `ValueError`. -/
def pyInt : Json → Except PyError Int
  | .num q => .ok (pyTrunc q)
  | .bool b => .ok (cond b 1 0)
  | .str _ => .error .valueError
  | _ => .error .typeError

/-- Mirror of the Python dataclass `PerformanceResult`. -/
structure PerformanceResult where
  test_name : String
  category : String
  architecture : String
  entity_count : Int
  average_time_us : ℚ
  min_time_us : ℚ
  max_time_us : ℚ
  std_deviation_us : ℚ
  entities_per_second : ℚ
  memory_usage : Int
  cache_hit_ratio : ℚ
  timestamp : String
  platform : String
  build_config : String
deriving DecidableEq, Repr

/-- Mirror of the per-item body of the `for item in benchmark_data` loop of
`PerformanceAnalyzer.load_results` (lines 102-123).  On a dict the inner
`try` catches `KeyError`/`ValueError`/`TypeError` and skips the record
(`.ok none`); on any non-dict item, `item.get` raises `AttributeError`,
which the script does not catch anywhere. -/
def parse_item (now : String) : Json → Except PyError (Option PerformanceResult)
  | .obj kvs =>
    let r : Except PyError PerformanceResult := do
      let entity_count ← pyInt (jget kvs "entity_count" (.num 0))
      let average_time_us ← pyFloat (jget kvs "real_time" (jget kvs "average_time_us" (.num 0)))
      let min_time_us ← pyFloat (jget kvs "min_time" (jget kvs "min_time_us" (.num 0)))
      let max_time_us ← pyFloat (jget kvs "max_time" (jget kvs "max_time_us" (.num 0)))
      let std_deviation_us ← pyFloat (jget kvs "stddev" (jget kvs "std_deviation_us" (.num 0)))
      let entities_per_second ← pyFloat (jget kvs "entities_per_second" (.num 0))
      let memory_usage ← pyInt (jget kvs "memory_usage" (jget kvs "peak_memory_usage" (.num 0)))
      let cache_hit_ratio ← pyFloat (jget kvs "cache_hit_ratio" (.num 0))
      pure {
        test_name := (jget kvs "name" (jget kvs "test_name" (.str "Unknown"))).render
        category := (jget kvs "category" (.str "Unknown")).render
        architecture := (jget kvs "architecture" (jget kvs "architecture_type" (.str "Unknown"))).render
        entity_count := entity_count
        average_time_us := average_time_us
        min_time_us := min_time_us
        max_time_us := max_time_us
        std_deviation_us := std_deviation_us
        entities_per_second := entities_per_second
        memory_usage := memory_usage
        cache_hit_ratio := cache_hit_ratio
        timestamp := (jget kvs "timestamp" (.str now)).render
        platform := (jget kvs "platform" (.str "unknown")).render
        build_config := (jget kvs "build_config" (.str "unknown")).render }
    match r with
    | .ok res => .ok (some res)
    | .error _ => .ok none
  | _ => .error .attributeError

/-- Mirror of the whole `for item in benchmark_data` loop: records parse in
order, skipped items are dropped, and an uncaught exception from one item
aborts the remainder. -/
def parse_items (now : String) : List Json → Except PyError (List PerformanceResult)
  | [] => .ok []
  | j :: js =>
    match parse_item now j with
    | .error e => .error e
    | .ok none => parse_items now js
    | .ok (some r) =>
      match parse_items now js with
      | .error e => .error e
      | .ok rs => .ok (r :: rs)

/-- Python `k in data`: key membership on a dict, substring test on a
string, element membership on a list, `TypeError` on numbers, booleans and
`None`. -/
def containsKey (data : Json) (k : String) : Except PyError Bool :=
  match data with
  | .obj kvs => .ok (jlookup kvs k).isSome
  | .str s => .ok (decide (k.data <:+: s.data))
  | .arr xs => .ok (xs.any (fun j => match j with | .str s => s == k | _ => false))
  | _ => .error .typeError

/-- Python `data[k]` with a string key: value lookup on a dict (`KeyError`
when absent), `TypeError` on every other type. -/
def getItem (data : Json) (k : String) : Except PyError Json :=
  match data with
  | .obj kvs =>
    match jlookup kvs k with
    | some v => .ok v
    | none => .error .keyError
  | _ => .error .typeError

/-- Python iteration `for item in b`: lists yield their elements, strings
their one-character substrings, dicts their keys; numbers, booleans and
`None` raise `TypeError`. -/
def asIterable : Json → Except PyError (List Json)
  | .arr xs => .ok xs
  | .str s => .ok (s.data.map (fun c => Json.str (String.singleton c)))
  | .obj kvs => .ok (kvs.map (fun kv => Json.str kv.1))
  | _ => .error .typeError

/-- The non-list arm of the shape dispatch of `load_results` (lines
95-100): the `benchmarks` key, then the `results` key, is consulted;
absent both, the document is a single bare record. -/
def selectDict (data : Json) : Except PyError Json :=
  match containsKey data "benchmarks" with
  | .error e => .error e
  | .ok true => getItem data "benchmarks"
  | .ok false =>
    match containsKey data "results" with
    | .error e => .error e
    | .ok true => getItem data "results"
    | .ok false => .ok (.arr [data])

/-- Mirror of the shape dispatch of `load_results` (lines 93-100): a
top-level list is the benchmark data itself; otherwise the keyed dispatch
of `selectDict` applies. -/
def selectContainer : Json → Except PyError Json
  | .arr xs => .ok (.arr xs)
  | data => selectDict data

/-- Body of `load_results` after `json.load` has produced `data`. -/
def loadFromData (now : String) (data : Json) : Except PyError (List PerformanceResult) :=
  match selectContainer data with
  | .error e => .error e
  | .ok container =>
    match asIterable container with
    | .error e => .error e
    | .ok items => parse_items now items

/-- Possible states of an input file: absent, present but not valid JSON,
or parsed JSON data. -/
inductive FileInput where
  | missing : FileInput
  | malformed : FileInput
  | parsed (data : Json) : FileInput

/-- Mirror of `PerformanceAnalyzer.load_results` (lines 84-129): the outer
`try` catches exactly `FileNotFoundError` and `json.JSONDecodeError`
(returning `[]` after logging); any other exception escapes the loader. -/
def load_results (now : String) : FileInput → Except PyError (List PerformanceResult)
  | .missing => .ok []
  | .malformed => .ok []
  | .parsed data => loadFromData now data

/-- Mirror of the Python dataclass `RegressionResult`.  The flags are `Bool`
as in the source; the statistical fields live in `ℝ` because the confidence
computation takes a square root. -/
structure RegressionResult where
  test_name : String
  baseline_performance : ℚ
  current_performance : ℚ
  change_percentage : ℚ
  is_regression : Bool
  is_improvement : Bool
  statistical_significance : ℝ
  confidence_level : ℝ

/-- Composite key `f"{test_name}_{architecture}_{entity_count}"` used to
match current results against baseline results. -/
def mkKey (r : PerformanceResult) : String :=
  r.test_name ++ "_" ++ r.architecture ++ "_" ++ toString r.entity_count

/-- The `baseline_lookup` dict of `detect_regressions` (lines 138-141): built
by insertion in list order, so the last result with a given key wins. -/
def baselineLookup (baseline : List PerformanceResult) (key : String) : Option PerformanceResult :=
  baseline.reverse.find? (fun r => mkKey r == key)

/-- Straight-line body of the `detect_regressions` loop for one matched
baseline/current pair (lines 158-177), reached only when the baseline
average is nonzero.  `x ** 0.5` is `Real.sqrt`. -/
noncomputable def classify_pair (threshold : ℚ) (b c : PerformanceResult) : RegressionResult :=
  let baseline_perf := b.average_time_us
  let current_perf := c.average_time_us
  let change_percentage := (current_perf - baseline_perf) / baseline_perf
  let baseline_cv : ℚ := if 0 < baseline_perf then b.std_deviation_us / baseline_perf else 0
  let current_cv : ℚ := if 0 < current_perf then c.std_deviation_us / current_perf else 0
  let combined_variance : ℝ := Real.sqrt ((baseline_cv : ℝ) ^ 2 + (current_cv : ℝ) ^ 2)
  let statistical_significance : ℝ := |(change_percentage : ℝ)| / (combined_variance + 1e-10)
  let confidence_level : ℝ := min 0.99 (statistical_significance / 3)
  { test_name := c.test_name
    baseline_performance := baseline_perf
    current_performance := current_perf
    change_percentage := change_percentage
    is_regression := decide (threshold < change_percentage)
    is_improvement := decide (change_percentage < -threshold)
    statistical_significance := statistical_significance
    confidence_level := confidence_level }

/-- The matching-and-classification pass of `detect_regressions` (lines
143-177): each current result with a baseline under the same key and a
nonzero baseline average yields one classified pair, in current-list
order; unmatched keys and zero baselines are skipped. -/
noncomputable def classifiedPairs (threshold : ℚ) (baseline current : List PerformanceResult) :
    List RegressionResult :=
  current.filterMap (fun c =>
    match baselineLookup baseline (mkKey c) with
    | none => none
    | some b => if b.average_time_us = 0 then none else some (classify_pair threshold b c))

/-- One step of the append loop of lines 179-182: `if` confident regression,
`elif` confident improvement, else dropped. -/
noncomputable def keepStep (r : RegressionResult)
    (acc : List RegressionResult × List RegressionResult) :
    List RegressionResult × List RegressionResult :=
  if r.is_regression = true ∧ (0.5 : ℝ) < r.confidence_level then (r :: acc.1, acc.2)
  else if r.is_improvement = true ∧ (0.5 : ℝ) < r.confidence_level then (acc.1, r :: acc.2)
  else acc

/-- Comparison used to sort regressions: descending `change_percentage`
(Python `sort(key=..., reverse=True)`). -/
def descLe (a b : RegressionResult) : Bool :=
  decide (b.change_percentage ≤ a.change_percentage)

/-- Comparison used to sort improvements: ascending `change_percentage`. -/
def ascLe (a b : RegressionResult) : Bool :=
  decide (a.change_percentage ≤ b.change_percentage)

/-- Mirror of `PerformanceAnalyzer.detect_regressions` (lines 131-188):
pair each current result with its baseline by key, skip unmatched keys and
zero baselines, classify, keep confident regressions and improvements
(`elif`: a result never lands in both lists), then sort regressions
descending and improvements ascending by `change_percentage` (the stable
Python sort, modelled by the stable `List.mergeSort`). -/
noncomputable def detect_regressions (threshold : ℚ) (baseline current : List PerformanceResult) :
    List RegressionResult × List RegressionResult :=
  let split := (classifiedPairs threshold baseline current).foldr keepStep ([], [])
  (split.1.mergeSort descLe, split.2.mergeSort ascLe)

/-- The summary entries of `run_analysis` that the surrounding control flow
reads.  Other entries (category counts, variance, platform lists) are
derived statistics no claim refers to; they are omitted from the record. -/
structure Summary where
  total_tests : Nat
  average_performance_us : ℚ
  regressions_detected : Nat
  improvements_detected : Nat
  has_baseline : Bool
deriving Repr, DecidableEq

/-- Result record of `run_analysis`.  The insight and recommendation string
generators (lines 190-412) are pure text derivation that no claim touches;
their output is not modelled. -/
structure Analysis where
  summary : Summary
  regressions : List RegressionResult
  improvements : List RegressionResult
  timestamp : String

/-- The `self.current_results.extend(load_results(f))` loop of
`run_analysis`: loads concatenate in order and an exception from any one
load aborts the run (to be caught in `main`). -/
def loadAll (now : String) : List FileInput → Except PyError (List PerformanceResult)
  | [] => .ok []
  | f :: fs =>
    match load_results now f with
    | .error e => .error e
    | .ok rs =>
      match loadAll now fs with
      | .error e => .error e
      | .ok rest => .ok (rs ++ rest)

/-- Python `os.path.exists` on our file model: only a missing file is
absent. -/
def fileExists : FileInput → Bool
  | .missing => false
  | _ => true

/-- Mirror of `PerformanceAnalyzer.run_analysis` (lines 414-468): load all
current files, raise `ValueError` when no current results were found,
load the baseline when the argument was given and the file exists, detect
regressions only when baseline results are nonempty. -/
noncomputable def run_analysis (threshold : ℚ) (now : String)
    (current_files : List FileInput) (baseline_file : Option FileInput) : Except PyError Analysis :=
  match loadAll now current_files with
  | .error e => .error e
  | .ok current =>
    if current.isEmpty then .error .valueError
    else
      let baselineLoad : Except PyError (List PerformanceResult) :=
        match baseline_file with
        | some bf => if fileExists bf then load_results now bf else .ok []
        | none => .ok []
      match baselineLoad with
      | .error e => .error e
      | .ok baseline_results =>
        let rI :=
          if baseline_results.isEmpty then ([], [])
          else detect_regressions threshold baseline_results current
        .ok {
          summary := {
            total_tests := current.length
            average_performance_us := (current.map (fun r => r.average_time_us)).sum / current.length
            regressions_detected := rI.1.length
            improvements_detected := rI.2.length
            has_baseline := baseline_file.isSome && !baseline_results.isEmpty }
          regressions := rI.1
          improvements := rI.2
          timestamp := now }

/-- Observable outcome of one invocation of `main`: the process exit code
and whether each of the two output files was written. -/
structure MainOutcome where
  exitCode : Nat
  wroteOutput : Bool
  wroteReport : Bool
deriving DecidableEq, Repr

/-- Mirror of `main` (lines 546-588).  The single `try` block runs
`run_analysis`, then `export_analysis` (the JSON write), then - only when a
report path was given - `generate_report` (the Markdown write); any
exception, including a failed write, falls to the `except` clause which
prints the error and exits with code 2.  Otherwise the exit code is 1 when
regressions were detected and 0 when not.  `exportFails` / `reportFails`
say whether the respective file write would raise. -/
noncomputable def mainOutcome (threshold : ℚ) (now : String)
    (current_files : List FileInput) (baseline_file : Option FileInput)
    (reportRequested exportFails reportFails : Bool) : MainOutcome :=
  match run_analysis threshold now current_files baseline_file with
  | .error _ => ⟨2, false, false⟩
  | .ok analysis =>
    if exportFails then ⟨2, false, false⟩
    else if reportRequested && reportFails then ⟨2, true, false⟩
    else if 0 < analysis.summary.regressions_detected then ⟨1, true, reportRequested⟩
    else ⟨0, true, reportRequested⟩

/-! ## Claim C1: classification of a matched pair -/

/-- Claim C1: for a matched pair with positive baseline average and any threshold,
`is_regression` holds exactly when `change = (current - baseline)/baseline`
exceeds the threshold and `is_improvement` exactly when `change < -threshold`;
for a non-negative threshold the flags are mutually exclusive, both false
when `|change| ≤ threshold`, and in particular both false when the averages
are equal. -/
theorem classification_flags (t : ℚ) (b c : PerformanceResult)
    (_hb : 0 < b.average_time_us) :
    ((classify_pair t b c).is_regression = true ↔
      t < (c.average_time_us - b.average_time_us) / b.average_time_us) ∧
    ((classify_pair t b c).is_improvement = true ↔
      (c.average_time_us - b.average_time_us) / b.average_time_us < -t) ∧
    (0 ≤ t →
      (¬((classify_pair t b c).is_regression = true ∧
          (classify_pair t b c).is_improvement = true)) ∧
      (|(c.average_time_us - b.average_time_us) / b.average_time_us| ≤ t →
        (classify_pair t b c).is_regression = false ∧
          (classify_pair t b c).is_improvement = false) ∧
      (c.average_time_us = b.average_time_us →
        (classify_pair t b c).is_regression = false ∧
          (classify_pair t b c).is_improvement = false)) := by
  refine ⟨by simp [classify_pair], by simp [classify_pair], fun ht => ⟨?_, ?_, ?_⟩⟩
  · simp only [classify_pair, decide_eq_true_eq]
    rintro ⟨h1, h2⟩
    linarith
  · intro habs
    rw [abs_le] at habs
    simp only [classify_pair, decide_eq_false_iff_not, not_lt]
    exact ⟨habs.2, by linarith [habs.1]⟩
  · intro heq
    have hch : (c.average_time_us - b.average_time_us) / b.average_time_us = 0 := by
      rw [heq, sub_self, zero_div]
    simp only [classify_pair, decide_eq_false_iff_not, not_lt, hch]
    exact ⟨ht, by linarith⟩

/-- Witness for `classification_flags` at threshold 0 and a pair whose
current average doubled. -/
theorem classification_flags_witness :
    (0 : ℚ) < 1 ∧
    (classify_pair 0 ⟨"n", "c", "a", 0, 1, 0, 0, 0, 0, 0, 0, "t", "p", "b"⟩
      ⟨"n", "c", "a", 0, 2, 0, 0, 0, 0, 0, 0, "t", "p", "b"⟩).is_regression = true :=
  ⟨one_pos, ((classification_flags 0 _ _ one_pos).1).mpr (by norm_num)⟩

/-! ## Claim C2: the statistical-significance formula -/

/-- Coefficient of variation exactly as the spec words it: `stdev/mean`,
`0` when the mean is `0`. -/
def spec_cv (std mean : ℚ) : ℚ := if mean = 0 then 0 else std / mean

/-- Significance as the spec words it, built from `spec_cv`. -/
noncomputable def spec_statistical_significance (b c : PerformanceResult) : ℝ :=
  |(((c.average_time_us - b.average_time_us) / b.average_time_us : ℚ) : ℝ)| /
    (Real.sqrt ((spec_cv b.std_deviation_us b.average_time_us : ℝ) ^ 2 +
      (spec_cv c.std_deviation_us c.average_time_us : ℝ) ^ 2) + 1e-10)

/-- Confidence as the spec words it. -/
noncomputable def spec_confidence_level (b c : PerformanceResult) : ℝ :=
  min 0.99 (spec_statistical_significance b c / 3)

/-- Coefficient of variation as the code computes it: `stdev/mean` when the
mean is positive, `0` otherwise (also for negative means). -/
def amended_cv (std mean : ℚ) : ℚ := if 0 < mean then std / mean else 0

/-- Counterexample to C2 as stated: with baseline average 1 (stdev 0) and
current average -1 (stdev 1), the code zeroes the current-side cv because
the mean is negative rather than zero, yielding confidence 0.99, while the
spec formula `stdev/mean` gives a strictly smaller confidence. -/
theorem cv_formula_counterexample :
    (classify_pair (5 / 100) ⟨"n", "c", "a", 0, 1, 0, 0, 0, 0, 0, 0, "t", "p", "b"⟩
      ⟨"n", "c", "a", 0, -1, 0, 0, 1, 0, 0, 0, "t", "p", "b"⟩).confidence_level = 0.99 ∧
    spec_confidence_level ⟨"n", "c", "a", 0, 1, 0, 0, 0, 0, 0, 0, "t", "p", "b"⟩
      ⟨"n", "c", "a", 0, -1, 0, 0, 1, 0, 0, 0, "t", "p", "b"⟩ < 0.99 ∧
    (classify_pair (5 / 100) ⟨"n", "c", "a", 0, 1, 0, 0, 0, 0, 0, 0, "t", "p", "b"⟩
      ⟨"n", "c", "a", 0, -1, 0, 0, 1, 0, 0, 0, "t", "p", "b"⟩).confidence_level ≠
      spec_confidence_level ⟨"n", "c", "a", 0, 1, 0, 0, 0, 0, 0, 0, "t", "p", "b"⟩
        ⟨"n", "c", "a", 0, -1, 0, 0, 1, 0, 0, 0, "t", "p", "b"⟩ := by
  have h1 : (classify_pair (5 / 100) ⟨"n", "c", "a", 0, 1, 0, 0, 0, 0, 0, 0, "t", "p", "b"⟩
      ⟨"n", "c", "a", 0, -1, 0, 0, 1, 0, 0, 0, "t", "p", "b"⟩).confidence_level = 0.99 := by
    simp only [classify_pair]
    norm_num [Real.sqrt_zero]
  have h2 : spec_confidence_level ⟨"n", "c", "a", 0, 1, 0, 0, 0, 0, 0, 0, "t", "p", "b"⟩
      ⟨"n", "c", "a", 0, -1, 0, 0, 1, 0, 0, 0, "t", "p", "b"⟩ < 0.99 := by
    have hs : spec_statistical_significance ⟨"n", "c", "a", 0, 1, 0, 0, 0, 0, 0, 0, "t", "p", "b"⟩
        ⟨"n", "c", "a", 0, -1, 0, 0, 1, 0, 0, 0, "t", "p", "b"⟩ = 2 / (1 + 1e-10) := by
      simp only [spec_statistical_significance, spec_cv]
      norm_num [Real.sqrt_one]
    refine lt_of_le_of_lt (min_le_right _ _) ?_
    rw [hs]
    norm_num
  refine ⟨h1, h2, ?_⟩
  rw [h1]
  exact ne_of_gt h2

/-- Claim C2 amended: the detector computes the per-side coefficient of variation
as `stdev/mean` when the mean is positive and `0` otherwise, combines them
as `sqrt(cv_b^2 + cv_c^2)`, sets `significance = |change|/(combined + 1e-10)`
and `confidence = min(0.99, significance/3)`; the confidence never exceeds
`0.99`. -/
theorem significance_formula (t : ℚ) (b c : PerformanceResult)
    (_hb : 0 < b.average_time_us) :
    (classify_pair t b c).statistical_significance =
      |(((c.average_time_us - b.average_time_us) / b.average_time_us : ℚ) : ℝ)| /
        (Real.sqrt ((amended_cv b.std_deviation_us b.average_time_us : ℝ) ^ 2 +
          (amended_cv c.std_deviation_us c.average_time_us : ℝ) ^ 2) + 1e-10) ∧
    (classify_pair t b c).confidence_level =
      min 0.99 ((classify_pair t b c).statistical_significance / 3) ∧
    (classify_pair t b c).confidence_level ≤ 0.99 := by
  refine ⟨rfl, rfl, min_le_left _ _⟩

/-- Witness for `significance_formula` at a concrete pair. -/
theorem significance_formula_witness :
    (0 : ℚ) < 1 ∧
    (classify_pair 1 ⟨"n", "c", "a", 0, 1, 0, 0, 0, 0, 0, 0, "t", "p", "b"⟩
      ⟨"n", "c", "a", 0, 2, 0, 0, 0, 0, 0, 0, "t", "p", "b"⟩).confidence_level ≤ 0.99 :=
  ⟨one_pos, (significance_formula 1 _ _ one_pos).2.2⟩

/-! ## Claims C3 and C7: shape of the output lists of the detector -/

/-- Elements of the first component of the keep fold come from the input
list and are confident regressions. -/
theorem mem_foldr_keepStep_fst {l : List RegressionResult} {r : RegressionResult}
    (h : r ∈ (l.foldr keepStep ([], [])).1) :
    r ∈ l ∧ r.is_regression = true ∧ (0.5 : ℝ) < r.confidence_level := by
  induction l with
  | nil => simp at h
  | cons a l ih =>
    rw [List.foldr_cons] at h
    by_cases h1 : a.is_regression = true ∧ (0.5 : ℝ) < a.confidence_level
    · rw [keepStep, if_pos h1] at h
      rcases List.mem_cons.mp h with rfl | h
      · exact ⟨List.mem_cons_self _ _, h1⟩
      · exact ⟨List.mem_cons_of_mem a (ih h).1, (ih h).2⟩
    · by_cases h2 : a.is_improvement = true ∧ (0.5 : ℝ) < a.confidence_level
      · rw [keepStep, if_neg h1, if_pos h2] at h
        exact ⟨List.mem_cons_of_mem a (ih h).1, (ih h).2⟩
      · rw [keepStep, if_neg h1, if_neg h2] at h
        exact ⟨List.mem_cons_of_mem a (ih h).1, (ih h).2⟩

/-- Elements of the second component of the keep fold come from the input
list and are confident improvements. -/
theorem mem_foldr_keepStep_snd {l : List RegressionResult} {r : RegressionResult}
    (h : r ∈ (l.foldr keepStep ([], [])).2) :
    r ∈ l ∧ r.is_improvement = true ∧ (0.5 : ℝ) < r.confidence_level := by
  induction l with
  | nil => simp at h
  | cons a l ih =>
    rw [List.foldr_cons] at h
    by_cases h1 : a.is_regression = true ∧ (0.5 : ℝ) < a.confidence_level
    · rw [keepStep, if_pos h1] at h
      exact ⟨List.mem_cons_of_mem a (ih h).1, (ih h).2⟩
    · by_cases h2 : a.is_improvement = true ∧ (0.5 : ℝ) < a.confidence_level
      · rw [keepStep, if_neg h1, if_pos h2] at h
        rcases List.mem_cons.mp h with rfl | h
        · exact ⟨List.mem_cons_self _ _, h2⟩
        · exact ⟨List.mem_cons_of_mem a (ih h).1, (ih h).2⟩
      · rw [keepStep, if_neg h1, if_neg h2] at h
        exact ⟨List.mem_cons_of_mem a (ih h).1, (ih h).2⟩

/-- Every classified pair records the (nonzero) baseline average it was
built from. -/
theorem mem_classifiedPairs_baseline_ne_zero {t : ℚ}
    {baseline current : List PerformanceResult} {r : RegressionResult}
    (h : r ∈ classifiedPairs t baseline current) : r.baseline_performance ≠ 0 := by
  rcases List.mem_filterMap.mp h with ⟨c, _, hf⟩
  cases hb : baselineLookup baseline (mkKey c) with
  | none => rw [hb] at hf; simp at hf
  | some b =>
    rw [hb] at hf
    by_cases hz : b.average_time_us = 0
    · simp [hz] at hf
    · simp only [hz, if_false, reduceIte] at hf
      rw [← Option.some.inj hf]
      exact hz

/-- The descending comparison is transitive. -/
theorem descLe_trans : ∀ a b c : RegressionResult, descLe a b → descLe b c → descLe a c := by
  intro a b c h1 h2
  simp only [descLe, decide_eq_true_eq] at *
  exact le_trans h2 h1

/-- The descending comparison is total. -/
theorem descLe_total : ∀ a b : RegressionResult, descLe a b || descLe b a := by
  intro a b
  simp only [descLe, Bool.or_eq_true, decide_eq_true_eq]
  exact le_total _ _

/-- The ascending comparison is transitive. -/
theorem ascLe_trans : ∀ a b c : RegressionResult, ascLe a b → ascLe b c → ascLe a c := by
  intro a b c h1 h2
  simp only [ascLe, decide_eq_true_eq] at *
  exact le_trans h1 h2

/-- The ascending comparison is total. -/
theorem ascLe_total : ∀ a b : RegressionResult, ascLe a b || ascLe b a := by
  intro a b
  simp only [ascLe, Bool.or_eq_true, decide_eq_true_eq]
  exact le_total _ _

/-- Claim C3: every element of the regressions list is a regression with
confidence above 0.5, every element of the improvements list is an
improvement with confidence above 0.5, the regressions list is sorted by
descending `change_percentage` and the improvements list by ascending
`change_percentage`, for all inputs. -/
theorem detect_output_lists (t : ℚ) (baseline current : List PerformanceResult) :
    (detect_regressions t baseline current).1.Forall
      (fun r => r.is_regression = true ∧ (0.5 : ℝ) < r.confidence_level) ∧
    (detect_regressions t baseline current).2.Forall
      (fun r => r.is_improvement = true ∧ (0.5 : ℝ) < r.confidence_level) ∧
    (detect_regressions t baseline current).1.Pairwise
      (fun a b => b.change_percentage ≤ a.change_percentage) ∧
    (detect_regressions t baseline current).2.Pairwise
      (fun a b => a.change_percentage ≤ b.change_percentage) := by
  refine ⟨?_, ?_, ?_, ?_⟩
  · rw [List.forall_iff_forall_mem]
    intro r hr
    rw [detect_regressions, List.mem_mergeSort] at hr
    exact (mem_foldr_keepStep_fst hr).2
  · rw [List.forall_iff_forall_mem]
    intro r hr
    rw [detect_regressions, List.mem_mergeSort] at hr
    exact (mem_foldr_keepStep_snd hr).2
  · have h := List.sorted_mergeSort descLe_trans descLe_total
      ((classifiedPairs t baseline current).foldr keepStep ([], [])).1
    exact h.imp (fun hab => by simpa [descLe] using hab)
  · have h := List.sorted_mergeSort ascLe_trans ascLe_total
      ((classifiedPairs t baseline current).foldr keepStep ([], [])).2
    exact h.imp (fun hab => by simpa [ascLe] using hab)

/-- Claim C7: a matched pair whose baseline average time is zero is excluded from
both output lists (its classification is never computed), for all inputs;
every reported result carries a nonzero baseline average. -/
theorem zero_baseline_excluded (t : ℚ) (baseline current : List PerformanceResult) :
    (detect_regressions t baseline current).1.Forall
      (fun r => r.baseline_performance ≠ 0) ∧
    (detect_regressions t baseline current).2.Forall
      (fun r => r.baseline_performance ≠ 0) := by
  constructor
  · rw [List.forall_iff_forall_mem]
    intro r hr
    rw [detect_regressions, List.mem_mergeSort] at hr
    exact mem_classifiedPairs_baseline_ne_zero (mem_foldr_keepStep_fst hr).1
  · rw [List.forall_iff_forall_mem]
    intro r hr
    rw [detect_regressions, List.mem_mergeSort] at hr
    exact mem_classifiedPairs_baseline_ne_zero (mem_foldr_keepStep_snd hr).1

/-! ## Loader analysis: coercibility and the parse equation -/

/-- Values the modelled `float()`/`int()` accept: numbers and booleans. -/
def numCoercible : Json → Bool
  | .num _ => true
  | .bool _ => true
  | _ => false

/-- The numeric value `float()` produces on a coercible value. -/
def coerceQ : Json → ℚ
  | .num q => q
  | .bool b => cond b 1 0
  | _ => 0

/-- The numeric value `int()` produces on a coercible value. -/
def coerceZ : Json → Int
  | .num q => pyTrunc q
  | .bool b => cond b 1 0
  | _ => 0

/-- A record entry survives parsing exactly when each resolved numeric
field value is coercible (an absent field resolves to the default `0`,
which is coercible). -/
def entryKept (kvs : List (String × Json)) : Bool :=
  numCoercible (jget kvs "entity_count" (.num 0)) &&
  numCoercible (jget kvs "real_time" (jget kvs "average_time_us" (.num 0))) &&
  numCoercible (jget kvs "min_time" (jget kvs "min_time_us" (.num 0))) &&
  numCoercible (jget kvs "max_time" (jget kvs "max_time_us" (.num 0))) &&
  numCoercible (jget kvs "stddev" (jget kvs "std_deviation_us" (.num 0))) &&
  numCoercible (jget kvs "entities_per_second" (.num 0)) &&
  numCoercible (jget kvs "memory_usage" (jget kvs "peak_memory_usage" (.num 0))) &&
  numCoercible (jget kvs "cache_hit_ratio" (.num 0))

/-- The record a kept entry parses to. -/
def mkRecord (now : String) (kvs : List (String × Json)) : PerformanceResult where
  test_name := (jget kvs "name" (jget kvs "test_name" (.str "Unknown"))).render
  category := (jget kvs "category" (.str "Unknown")).render
  architecture := (jget kvs "architecture" (jget kvs "architecture_type" (.str "Unknown"))).render
  entity_count := coerceZ (jget kvs "entity_count" (.num 0))
  average_time_us := coerceQ (jget kvs "real_time" (jget kvs "average_time_us" (.num 0)))
  min_time_us := coerceQ (jget kvs "min_time" (jget kvs "min_time_us" (.num 0)))
  max_time_us := coerceQ (jget kvs "max_time" (jget kvs "max_time_us" (.num 0)))
  std_deviation_us := coerceQ (jget kvs "stddev" (jget kvs "std_deviation_us" (.num 0)))
  entities_per_second := coerceQ (jget kvs "entities_per_second" (.num 0))
  memory_usage := coerceZ (jget kvs "memory_usage" (jget kvs "peak_memory_usage" (.num 0)))
  cache_hit_ratio := coerceQ (jget kvs "cache_hit_ratio" (.num 0))
  timestamp := (jget kvs "timestamp" (.str now)).render
  platform := (jget kvs "platform" (.str "unknown")).render
  build_config := (jget kvs "build_config" (.str "unknown")).render

theorem except_bind_ok {α β : Type} (a : α) (f : α → Except PyError β) :
    (Except.ok a >>= f) = f a := rfl

theorem except_bind_error {α β : Type} (e : PyError) (f : α → Except PyError β) :
    ((Except.error e : Except PyError α) >>= f) = .error e := rfl

theorem pyFloat_coercible (v : Json) (h : numCoercible v = true) :
    pyFloat v = .ok (coerceQ v) := by
  cases v <;> simp_all [numCoercible, pyFloat, coerceQ]

theorem pyFloat_not_coercible (v : Json) (h : numCoercible v = false) :
    ∃ e, pyFloat v = .error e := by
  cases v <;> simp_all [numCoercible, pyFloat]

theorem pyInt_coercible (v : Json) (h : numCoercible v = true) :
    pyInt v = .ok (coerceZ v) := by
  cases v <;> simp_all [numCoercible, pyInt, coerceZ]

theorem pyInt_not_coercible (v : Json) (h : numCoercible v = false) :
    ∃ e, pyInt v = .error e := by
  cases v <;> simp_all [numCoercible, pyInt]

/-- Closed form of `parse_item` on a dict: the entry yields a record built
from the coerced resolved field values when every such value is coercible,
and is skipped otherwise; it never raises. -/
theorem parse_item_obj_eq (now : String) (kvs : List (String × Json)) :
    parse_item now (.obj kvs) =
      .ok (if entryKept kvs then some (mkRecord now kvs) else none) := by
  rw [parse_item]
  by_cases h1 : numCoercible (jget kvs "entity_count" (.num 0)) = true
  case neg =>
    obtain ⟨e, he⟩ := pyInt_not_coercible _ (Bool.eq_false_iff.mpr h1)
    rw [he]
    simp [entryKept, Bool.eq_false_iff.mpr h1, except_bind_error]
  case pos =>
  rw [pyInt_coercible _ h1, except_bind_ok]
  by_cases h2 : numCoercible (jget kvs "real_time" (jget kvs "average_time_us" (.num 0))) = true
  case neg =>
    obtain ⟨e, he⟩ := pyFloat_not_coercible _ (Bool.eq_false_iff.mpr h2)
    rw [he]
    simp [entryKept, Bool.eq_false_iff.mpr h2, except_bind_error]
  case pos =>
  rw [pyFloat_coercible _ h2, except_bind_ok]
  by_cases h3 : numCoercible (jget kvs "min_time" (jget kvs "min_time_us" (.num 0))) = true
  case neg =>
    obtain ⟨e, he⟩ := pyFloat_not_coercible _ (Bool.eq_false_iff.mpr h3)
    rw [he]
    simp [entryKept, Bool.eq_false_iff.mpr h3, except_bind_error]
  case pos =>
  rw [pyFloat_coercible _ h3, except_bind_ok]
  by_cases h4 : numCoercible (jget kvs "max_time" (jget kvs "max_time_us" (.num 0))) = true
  case neg =>
    obtain ⟨e, he⟩ := pyFloat_not_coercible _ (Bool.eq_false_iff.mpr h4)
    rw [he]
    simp [entryKept, Bool.eq_false_iff.mpr h4, except_bind_error]
  case pos =>
  rw [pyFloat_coercible _ h4, except_bind_ok]
  by_cases h5 : numCoercible (jget kvs "stddev" (jget kvs "std_deviation_us" (.num 0))) = true
  case neg =>
    obtain ⟨e, he⟩ := pyFloat_not_coercible _ (Bool.eq_false_iff.mpr h5)
    rw [he]
    simp [entryKept, Bool.eq_false_iff.mpr h5, except_bind_error]
  case pos =>
  rw [pyFloat_coercible _ h5, except_bind_ok]
  by_cases h6 : numCoercible (jget kvs "entities_per_second" (.num 0)) = true
  case neg =>
    obtain ⟨e, he⟩ := pyFloat_not_coercible _ (Bool.eq_false_iff.mpr h6)
    rw [he]
    simp [entryKept, Bool.eq_false_iff.mpr h6, except_bind_error]
  case pos =>
  rw [pyFloat_coercible _ h6, except_bind_ok]
  by_cases h7 : numCoercible (jget kvs "memory_usage" (jget kvs "peak_memory_usage" (.num 0))) = true
  case neg =>
    obtain ⟨e, he⟩ := pyInt_not_coercible _ (Bool.eq_false_iff.mpr h7)
    rw [he]
    simp [entryKept, Bool.eq_false_iff.mpr h7, except_bind_error]
  case pos =>
  rw [pyInt_coercible _ h7, except_bind_ok]
  by_cases h8 : numCoercible (jget kvs "cache_hit_ratio" (.num 0)) = true
  case neg =>
    obtain ⟨e, he⟩ := pyFloat_not_coercible _ (Bool.eq_false_iff.mpr h8)
    rw [he]
    simp [entryKept, Bool.eq_false_iff.mpr h8, except_bind_error]
  case pos =>
  rw [pyFloat_coercible _ h8, except_bind_ok]
  have hk : entryKept kvs = true := by
    simp [entryKept, h1, h2, h3, h4, h5, h6, h7, h8]
  rw [if_pos hk]
  rfl

/-- Whether an arbitrary JSON item parses to a record. -/
def entryKeptJson : Json → Bool
  | .obj kvs => entryKept kvs
  | _ => false

/-- On a list of dicts, parsing never raises and keeps exactly the entries
whose resolved numeric fields are all coercible. -/
theorem parse_items_objs (now : String) (xs : List Json) (h : ∀ j ∈ xs, j.isObj = true) :
    ∃ L, parse_items now xs = .ok L ∧ L.length = xs.countP entryKeptJson := by
  induction xs with
  | nil => exact ⟨[], rfl, by simp⟩
  | cons j js ih =>
    obtain ⟨L, hL, hlen⟩ := ih (fun x hx => h x (List.mem_cons_of_mem _ hx))
    have hj := h j (List.mem_cons_self _ _)
    cases j with
    | obj kvs =>
      by_cases hk : entryKept kvs = true
      · refine ⟨mkRecord now kvs :: L, ?_, ?_⟩
        · rw [parse_items, parse_item_obj_eq, if_pos hk, hL]
        · rw [List.countP_cons_of_pos _ _ (by simpa [entryKeptJson] using hk)]
          simp [hlen]
      · refine ⟨L, ?_, ?_⟩
        · rw [parse_items, parse_item_obj_eq, if_neg hk]
          exact hL
        · rw [List.countP_cons_of_neg _ _ (by simpa [entryKeptJson] using hk)]
          exact hlen
    | null => simp [Json.isObj] at hj
    | bool b => simp [Json.isObj] at hj
    | num q => simp [Json.isObj] at hj
    | str s => simp [Json.isObj] at hj
    | arr ys => simp [Json.isObj] at hj

/-! ## Claim C4: the loader boundary -/

/-- Counterexample to C4 as stated: two well-formed JSON documents on which
an exception escapes `load_results` - a top-level number makes the
`benchmarks in data` test raise `TypeError`, and a non-dict entry of a
bare array makes `item.get` raise `AttributeError`; neither is caught by
the loader, whose `except` clause handles only `FileNotFoundError` and
`json.JSONDecodeError`. -/
theorem loader_exception_counterexample :
    load_results "t" (.parsed (.num 5)) = .error .typeError ∧
    load_results "t" (.parsed (.arr [.num 5])) = .error .attributeError :=
  ⟨rfl, rfl⟩

/-- Claim C4 amended: a missing file or malformed JSON yields the empty sequence
plus a logged error, and no exception escapes the loader on documents all
of whose records are JSON objects; documents containing non-object records
can raise `TypeError`/`AttributeError` past the loader boundary. -/
theorem loader_boundary_amended (now : String) :
    load_results now .missing = .ok [] ∧
    load_results now .malformed = .ok [] ∧
    ∀ xs : List Json, (∀ j ∈ xs, j.isObj = true) →
      ∃ L, load_results now (.parsed (.arr xs)) = .ok L := by
  refine ⟨rfl, rfl, fun xs h => ?_⟩
  obtain ⟨L, hL, _⟩ := parse_items_objs now xs h
  exact ⟨L, hL⟩

/-- Witness for `loader_boundary_amended` on a one-object array. -/
theorem loader_boundary_amended_witness :
    load_results "t" .missing = .ok [] ∧
    (∀ j ∈ [Json.obj []], j.isObj = true) ∧
    (∃ L, load_results "t" (.parsed (.arr [Json.obj []])) = .ok L) :=
  ⟨(loader_boundary_amended "t").1, by decide,
    (loader_boundary_amended "t").2.2 [Json.obj []] (by decide)⟩

/-! ## Claim C5: which records are skipped -/

/-- Skip condition of claim C5, written from the words of the spec: an entry is
counted out when a required numeric field is missing (no accepted key name
present) or uncoercible. -/
def specEntrySkipped : Json → Bool
  | .obj kvs =>
      (match (jlookup kvs "entity_count") with
        | none => true | some v => !(numCoercible v)) ||
      (match (jlookup kvs "real_time").orElse (fun _ => jlookup kvs "average_time_us") with
        | none => true | some v => !(numCoercible v)) ||
      (match (jlookup kvs "min_time").orElse (fun _ => jlookup kvs "min_time_us") with
        | none => true | some v => !(numCoercible v)) ||
      (match (jlookup kvs "max_time").orElse (fun _ => jlookup kvs "max_time_us") with
        | none => true | some v => !(numCoercible v)) ||
      (match (jlookup kvs "stddev").orElse (fun _ => jlookup kvs "std_deviation_us") with
        | none => true | some v => !(numCoercible v)) ||
      (match (jlookup kvs "entities_per_second") with
        | none => true | some v => !(numCoercible v)) ||
      (match (jlookup kvs "memory_usage").orElse (fun _ => jlookup kvs "peak_memory_usage") with
        | none => true | some v => !(numCoercible v)) ||
      (match (jlookup kvs "cache_hit_ratio") with
        | none => true | some v => !(numCoercible v))
  | _ => true

unseal Json.render in
/-- Counterexample to C5 as stated: a benchmarks file whose single entry
has every required numeric field missing.  The claim predicts 1 - 1 = 0
records, but the loader fills the missing fields with defaults and keeps
the record, producing 1. -/
theorem record_skip_counterexample :
    load_results "t" (.parsed (.obj [("benchmarks", .arr [.obj []])])) =
      .ok [⟨"Unknown", "Unknown", "Unknown", 0, 0, 0, 0, 0, 0, 0, 0, "t", "unknown", "unknown"⟩] ∧
    specEntrySkipped (.obj []) = true :=
  ⟨rfl, rfl⟩

/-- Claim C5 amended: a record with an uncoercible required field is skipped with
a warning while the rest of the file still loads; a record with missing
fields is kept with defaults; hence for the three accepted shapes with
all-object entries, the loader produces exactly the number of array
entries minus the entries with an uncoercible resolved field. -/
theorem load_count_amended (now : String) (xs : List Json) (h : ∀ j ∈ xs, j.isObj = true) :
    ∃ L, load_results now (.parsed (.arr xs)) = .ok L ∧
      load_results now (.parsed (.obj [("benchmarks", .arr xs)])) = .ok L ∧
      load_results now (.parsed (.obj [("results", .arr xs)])) = .ok L ∧
      L.length = xs.length - xs.countP (fun j => !(entryKeptJson j)) := by
  obtain ⟨L, hL, hlen⟩ := parse_items_objs now xs h
  have hcount : xs.countP entryKeptJson + xs.countP (fun j => !(entryKeptJson j)) = xs.length := by
    simpa using (List.length_eq_countP_add_countP entryKeptJson xs).symm
  exact ⟨L, hL, hL, hL, by omega⟩

/-- Witness for `load_count_amended`: one defaulted entry, one entry whose
`real_time` is `null` (uncoercible, skipped). -/
theorem load_count_amended_witness :
    (∀ j ∈ [Json.obj [], Json.obj [("real_time", Json.null)]], j.isObj = true) ∧
    (∃ L, load_results "t" (.parsed (.arr [Json.obj [], Json.obj [("real_time", Json.null)]])) = .ok L ∧
      load_results "t" (.parsed (.obj [("benchmarks", .arr [Json.obj [], Json.obj [("real_time", Json.null)]])])) = .ok L ∧
      load_results "t" (.parsed (.obj [("results", .arr [Json.obj [], Json.obj [("real_time", Json.null)]])])) = .ok L ∧
      L.length = [Json.obj [], Json.obj [("real_time", Json.null)]].length -
        [Json.obj [], Json.obj [("real_time", Json.null)]].countP (fun j => !(entryKeptJson j))) :=
  ⟨by decide, load_count_amended "t" _ (by decide)⟩

/-! ## Claim C9: the data-model invariant -/

unseal Json.render in
/-- Counterexample to C9: a record whose `real_time` is `-5` loads into a
`PerformanceResult` with negative `average_time_us`; the loader validates
nothing. -/
theorem loader_invariant_counterexample :
    load_results "t" (.parsed (.obj [("benchmarks", .arr [.obj [("real_time", .num (-5))]])])) =
      .ok [⟨"Unknown", "Unknown", "Unknown", 0, -5, 0, 0, 0, 0, 0, 0, "t", "unknown", "unknown"⟩] ∧
    ¬((0 : ℚ) ≤ (⟨"Unknown", "Unknown", "Unknown", 0, -5, 0, 0, 0, 0, 0, 0,
        "t", "unknown", "unknown"⟩ : PerformanceResult).average_time_us) :=
  ⟨rfl, by decide⟩

/-- Claim C9 amended: the loader copies coerced input values without validation,
so a produced record satisfies the invariant `0 ≤ average` and
`min ≤ average ≤ max` exactly when the resolved input values do; stated
here as the preservation direction. -/
theorem loader_invariant_amended (now : String) (kvs : List (String × Json))
    (r : PerformanceResult) (h : parse_item now (.obj kvs) = .ok (some r))
    (h1 : 0 ≤ coerceQ (jget kvs "real_time" (jget kvs "average_time_us" (.num 0))))
    (h2 : coerceQ (jget kvs "min_time" (jget kvs "min_time_us" (.num 0))) ≤
          coerceQ (jget kvs "real_time" (jget kvs "average_time_us" (.num 0))))
    (h3 : coerceQ (jget kvs "real_time" (jget kvs "average_time_us" (.num 0))) ≤
          coerceQ (jget kvs "max_time" (jget kvs "max_time_us" (.num 0)))) :
    0 ≤ r.average_time_us ∧ r.min_time_us ≤ r.average_time_us ∧
      r.average_time_us ≤ r.max_time_us := by
  rw [parse_item_obj_eq] at h
  by_cases hk : entryKept kvs = true
  · rw [if_pos hk] at h
    have hr : mkRecord now kvs = r := by
      have := Except.ok.inj h
      exact Option.some.inj this
    rw [← hr]
    exact ⟨h1, h2, h3⟩
  · rw [if_neg hk] at h
    simp at h

unseal Json.render in
/-- Witness for `loader_invariant_amended` on the all-defaults record. -/
theorem loader_invariant_amended_witness :
    parse_item "t" (.obj []) =
      .ok (some ⟨"Unknown", "Unknown", "Unknown", 0, 0, 0, 0, 0, 0, 0, 0,
        "t", "unknown", "unknown"⟩) ∧
    (0 : ℚ) ≤ coerceQ (jget [] "real_time" (jget [] "average_time_us" (.num 0))) ∧
    (0 ≤ (⟨"Unknown", "Unknown", "Unknown", 0, 0, 0, 0, 0, 0, 0, 0,
        "t", "unknown", "unknown"⟩ : PerformanceResult).average_time_us) :=
  ⟨rfl, by decide,
    (loader_invariant_amended "t" [] _ rfl (by decide) (by decide) (by decide)).1⟩

/-! ## Claim C10: the container-shape dispatch -/

/-- Claim C10: dispatch is ordered - when a top-level object has a `benchmarks`
key, the loader reads exactly the value under it (any `results` key is
ignored); an object with neither key is treated as a single bare record
and yields at most one result. -/
theorem container_dispatch (now : String) :
    (∀ kvs v, jlookup kvs "benchmarks" = some v →
      loadFromData now (.obj kvs) =
        (match asIterable v with
         | .error e => .error e
         | .ok items => parse_items now items)) ∧
    (∀ kvs, jlookup kvs "benchmarks" = none → jlookup kvs "results" = none →
      ∃ L, loadFromData now (.obj kvs) = .ok L ∧ L.length ≤ 1) := by
  constructor
  · intro kvs v hv
    have hsel : selectContainer (Json.obj kvs) = .ok v := by
      show selectDict (Json.obj kvs) = .ok v
      rw [selectDict]
      simp [containsKey, hv, getItem]
    rw [loadFromData, hsel]
  · intro kvs hb hr
    have hsel : selectContainer (Json.obj kvs) = .ok (.arr [Json.obj kvs]) := by
      show selectDict (Json.obj kvs) = .ok (.arr [Json.obj kvs])
      rw [selectDict]
      simp [containsKey, hb, hr]
    have h1 : loadFromData now (.obj kvs) = parse_items now [Json.obj kvs] := by
      rw [loadFromData, hsel]
      rfl
    rw [h1, parse_items, parse_item_obj_eq]
    by_cases hk : entryKept kvs = true
    · rw [if_pos hk]
      exact ⟨[mkRecord now kvs], rfl, by simp⟩
    · rw [if_neg hk]
      exact ⟨[], rfl, by simp⟩

/-- Witness for `container_dispatch`: an object carrying both keys uses the
(empty) `benchmarks` list, and an object with neither key yields at most
one record. -/
theorem container_dispatch_witness :
    jlookup [("benchmarks", Json.arr []), ("results", Json.arr [Json.null])] "benchmarks" =
      some (Json.arr []) ∧
    loadFromData "t" (.obj [("benchmarks", Json.arr []), ("results", Json.arr [Json.null])]) =
      .ok [] ∧
    (∃ L, loadFromData "t" (.obj [("x", Json.null)]) = .ok L ∧ L.length ≤ 1) :=
  ⟨rfl,
    (container_dispatch "t").1 [("benchmarks", Json.arr []), ("results", Json.arr [Json.null])]
      (Json.arr []) rfl,
    (container_dispatch "t").2 [("x", Json.null)] rfl rfl⟩

/-! ## Claim C6: the exit-code contract -/

/-- When every current file loads to the empty list, the concatenated load
is empty. -/
theorem loadAll_of_all_empty (now : String) :
    ∀ files : List FileInput, (∀ f ∈ files, load_results now f = .ok []) →
      loadAll now files = .ok [] := by
  intro files
  induction files with
  | nil => intro _; rfl
  | cons f fs ih =>
    intro h
    rw [loadAll, h f (List.mem_cons_self _ _),
      ih (fun x hx => h x (List.mem_cons_of_mem _ hx))]
    rfl

/-- Claim C6: the process exits 0 exactly when the analysis and both requested
writes succeed with no regression detected, 1 exactly when they succeed
with regressions detected, and 2 exactly on an unrecoverable error (failed
analysis or failed write); in particular, when every current input file
loads zero results the process exits 2 and writes neither output file. -/
theorem main_exit_contract (t : ℚ) (now : String) (files : List FileInput)
    (bf : Option FileInput) (rep ef rf : Bool) :
    ((mainOutcome t now files bf rep ef rf).exitCode = 0 ↔
      (∃ a, run_analysis t now files bf = .ok a ∧ a.summary.regressions_detected = 0) ∧
        ef = false ∧ (rep && rf) = false) ∧
    ((mainOutcome t now files bf rep ef rf).exitCode = 1 ↔
      (∃ a, run_analysis t now files bf = .ok a ∧ 0 < a.summary.regressions_detected) ∧
        ef = false ∧ (rep && rf) = false) ∧
    ((mainOutcome t now files bf rep ef rf).exitCode = 2 ↔
      (∃ e, run_analysis t now files bf = .error e) ∨ ef = true ∨ (rep && rf) = true) ∧
    ((∀ f ∈ files, load_results now f = .ok []) →
      mainOutcome t now files bf rep ef rf = ⟨2, false, false⟩) := by
  have hempty : (∀ f ∈ files, load_results now f = .ok []) →
      mainOutcome t now files bf rep ef rf = ⟨2, false, false⟩ := by
    intro h
    have hl : loadAll now files = .ok [] := loadAll_of_all_empty now files h
    have hra : run_analysis t now files bf = .error .valueError := by
      rw [run_analysis.eq_def, hl]
      rfl
    rw [mainOutcome, hra]
  refine ⟨?_, ?_, ?_, hempty⟩ <;> cases hr : run_analysis t now files bf with
  | error e => rw [mainOutcome, hr]; simp
  | ok a =>
    cases ef with
    | true => rw [mainOutcome, hr]; simp
    | false =>
      cases hrr : rep && rf with
      | true => rw [mainOutcome, hr]; simp [hrr]
      | false =>
        by_cases hreg : 0 < a.summary.regressions_detected
        · rw [mainOutcome, hr]
          simp [hrr, hreg, Nat.pos_iff_ne_zero.mp hreg]
        · rw [mainOutcome, hr]
          simp [hrr, hreg, Nat.eq_zero_of_not_pos hreg]

/-- Witness for `main_exit_contract`: a single missing current file loads
zero results, so the run exits 2 without writing either file. -/
theorem main_exit_contract_witness :
    (∀ f ∈ [FileInput.missing], load_results "t" f = .ok []) ∧
    mainOutcome 1 "t" [FileInput.missing] none true false false = ⟨2, false, false⟩ :=
  ⟨fun f hf => by rw [List.eq_of_mem_singleton hf]; rfl,
    (main_exit_contract 1 "t" [FileInput.missing] none true false false).2.2.2
      (fun f hf => by rw [List.eq_of_mem_singleton hf]; rfl)⟩

/-! ## Claim C8: independence of the two output writes -/

unseal Json.render in
/-- Counterexample to C8 as stated: on a run whose analysis succeeds, with
a report requested whose write would succeed (`reportFails = false`), a
failure of the JSON export alone ends the process with exit code 2 and the
Markdown report is never attempted (`wroteReport = false`) - the two
writes are not independent. -/
theorem export_failure_counterexample :
    mainOutcome 1 "t" [.parsed (.obj [("benchmarks", .arr [.obj [("real_time", .num 1)]])])]
      none true true false = ⟨2, false, false⟩ := rfl

/-- Claim C8 amended: the JSON export runs first inside the single `try` block of
`main`; a failing export is reported with exit code 2 but prevents the
Markdown report from being attempted; a failing report write after a
successful export is reported with exit code 2 with the JSON already
written; when both writes succeed the exit code reflects the regression
count. -/
theorem write_sequencing_amended (t : ℚ) (now : String) (files : List FileInput)
    (bf : Option FileInput) (rep : Bool) (a : Analysis)
    (h : run_analysis t now files bf = .ok a) :
    mainOutcome t now files bf rep true false = ⟨2, false, false⟩ ∧
    mainOutcome t now files bf rep true true = ⟨2, false, false⟩ ∧
    mainOutcome t now files bf true false true = ⟨2, true, false⟩ ∧
    mainOutcome t now files bf rep false false =
      ⟨if 0 < a.summary.regressions_detected then 1 else 0, true, rep⟩ := by
  refine ⟨?_, ?_, ?_, ?_⟩
  · rw [mainOutcome, h]
    rfl
  · rw [mainOutcome, h]
    rfl
  · rw [mainOutcome, h]
    rfl
  · rw [mainOutcome, h]
    by_cases hreg : 0 < a.summary.regressions_detected
    · simp [hreg]
    · simp [hreg]

unseal Json.render in
/-- Witness for `write_sequencing_amended` on a concrete one-record run
with no baseline. -/
theorem write_sequencing_amended_witness :
    run_analysis 1 "t" [.parsed (.obj [("benchmarks", .arr [.obj [("real_time", .num 1)]])])]
      none = .ok ⟨⟨1, 1, 0, 0, false⟩, [], [], "t"⟩ ∧
    mainOutcome 1 "t" [.parsed (.obj [("benchmarks", .arr [.obj [("real_time", .num 1)]])])]
      none false true false = ⟨2, false, false⟩ := by
  have hload : loadAll "t" [.parsed (.obj [("benchmarks", .arr [.obj [("real_time", .num 1)]])])] =
      .ok [⟨"Unknown", "Unknown", "Unknown", 0, 1, 0, 0, 0, 0, 0, 0, "t", "unknown", "unknown"⟩] :=
    rfl
  have hrun : run_analysis 1 "t"
      [.parsed (.obj [("benchmarks", .arr [.obj [("real_time", .num 1)]])])] none =
      .ok ⟨⟨1, 1, 0, 0, false⟩, [], [], "t"⟩ := by
    rw [run_analysis.eq_def, hload]
    norm_num
  exact ⟨hrun,
    (write_sequencing_amended 1 "t"
      [.parsed (.obj [("benchmarks", .arr [.obj [("real_time", .num 1)]])])] none false _ hrun).1⟩

end ECScope
